import Mathlib

/-!
# Shallow embedding of `src/xrasterlib/Raster.py`

The `Raster` class keeps three pieces of mutable state: `self.data` (an
xarray `DataArray` over a `band` dimension, each band carrying an integer
coordinate label), `self.bands` (a Python list of band-name strings) and
`self.nodataval` (the tuple of no-data values captured from the file's
metadata at load time).

Embedding choices, each tied to the source:

* A band slice of `self.data` is modelled as a pair `(label, content)`:
  `label : Int` is the value of the `band` coordinate attached to the slice
  (`xr.open_rasterio` labels the bands `1 .. n`; `addindices` attaches the
  label `nbands` to each new slice), and `content : List Int` is the
  slice's pixel values flattened row-major.  Pixel values are modelled as
  `Int`.
* Python exceptions are modelled with `Except RError`; an operation that
  raises leaves the caller's state untouched, which the functional embedding
  captures by returning no state in the error case.
* A `Raster` object on which `__init__` ran with `filename=None` has the
  attributes `data` / `bands` / `nodataval` unset; `readraster` stores its
  `bands` argument verbatim, including `None`.  `RasterObj` therefore holds
  `Option` fields (an unset attribute and an attribute set to `None` are
  merged, since no code path distinguishes them).
* The per-band `scales` / `offsets` attribute replication done at the end of
  `addindices` (source lines 128-129) touches only scale/offset metadata
  that no other operation or claim reads; it is left out of the state.
* `sieve` and `median` are pure pass-throughs to scipy/rasterio and carry no
  logic of their own; they are not modelled.
-/

/-- Errors raised by `Raster` methods.  The names follow the spec's error
taxonomy; the comments record the concrete Python exception each one embeds. -/
inductive RError where
  /-- `RuntimeError('{} does not exist')` from the `os.path.isfile` guard in `__init__`. -/
  | notFound : RError
  /-- `RuntimeError('Must specify band names. ...')` from the `bands is None` guard in `__init__`. -/
  | configuration : RError
  /-- `KeyError` from the `ops[op]` dictionary lookup in `preprocess`. -/
  | unsupportedOperator : RError
  /-- `AssertionError` (with its message) from the guard in `dropindices`. -/
  | invalidBand : String → RError
  /-- An exception raised inside an external library call
  (`xr.open_rasterio` on a missing file, the `.drop` call in `dropindices`
  rejecting its keyword arguments, numpy shape errors, indexing an empty
  tuple). -/
  | libraryError : RError
deriving DecidableEq, Repr

deriving instance DecidableEq for Except

/-- The loaded state of a `Raster`: `data` is the list of band slices
(coordinate label, flattened pixels), `bands` the band-name list,
`nodataval` the captured `nodatavals` metadata tuple. -/
structure RasterState where
  data : List (Int × List Int)
  bands : List String
  nodataval : List Int
deriving DecidableEq, Repr

/-- A `Raster` object as `__init__` leaves it: each attribute may be unset
(`filename=None` path) or set.  `bands` is whatever was assigned, possibly
`None`. -/
structure RasterObj where
  data : Option (List (Int × List Int))
  bands : Option (List String)
  nodataval : Option (List Int)
deriving DecidableEq, Repr

/-- Content of a raster file on disk: per-band pixel contents plus the
`nodatavals` metadata tuple. -/
structure FileData where
  bands : List (List Int)
  nodatavals : List Int
deriving DecidableEq, Repr

/-- The file system: maps a filename to the file's content when it exists. -/
def FS : Type := String → Option FileData

/-- `xr.open_rasterio` on an existing file: the band slices are labelled
`1 .. n` by the `band` coordinate. -/
def mkData (fd : FileData) : List (Int × List Int) :=
  fd.bands.enum.map (fun p => ((p.1 : Int) + 1, p.2))

/-- `Raster.__init__` (source lines 27-60).  With `filename=None` nothing is
set; otherwise the `os.path.isfile` guard raises for a missing file, the
file is opened, and the `bands is None` guard raises when band names were
omitted. -/
def rasterInit (fs : FS) (filename : Option String) (bands : Option (List String)) :
    Except RError RasterObj :=
  match filename with
  | none => .ok ⟨none, none, none⟩
  | some fn =>
    match fs fn with
    | none => .error .notFound
    | some fd =>
      match bands with
      | none => .error .configuration
      | some bs => .ok ⟨some (mkData fd), some bs, some fd.nodatavals⟩

/-- `Raster.readraster` (source lines 69-80).  No existence guard: a missing
file surfaces as the library's own error from `xr.open_rasterio`.  No
band-name guard: `self.bands = bands` stores the argument verbatim. -/
def readraster (fs : FS) (_st : RasterObj) (filename : String) (bands : Option (List String)) :
    Except RError RasterObj :=
  match fs filename with
  | none => .error .libraryError
  | some fd => .ok ⟨some (mkData fd), bands, some fd.nodatavals⟩

/-- `Raster.preprocess` (source lines 85-104).
`ops = {'<': operator.lt, '>': operator.gt}`; an operator outside the dict
raises `KeyError`.  `self.data.where(cond, other=replace)` keeps each pixel
where the comparison holds and substitutes `replace` elsewhere. -/
def preprocess (st : RasterState) (op : String) (boundary replace : Int) :
    Except RError RasterState :=
  if op = "<" then
    .ok ⟨st.data.map (fun p => (p.1, p.2.map (fun v => if v < boundary then v else replace))), st.bands, st.nodataval⟩
  else if op = ">" then
    .ok ⟨st.data.map (fun p => (p.1, p.2.map (fun v => if boundary < v then v else replace))), st.bands, st.nodataval⟩
  else
    .error .unsupportedOperator

/-- An index-computation function as `addindices` calls it:
`indices_function(self.data, bands=self.bands, factor=factor)` returns the
new band's content and its band id. -/
def IdxFun : Type := List (Int × List Int) → List String → Int → (List Int × String)

/-- The loop body of `Raster.addindices` (source lines 117-125): `nbands` is
incremented, the index function is applied to the current data and the
current (progressively grown) band list, the returned id is appended to
`self.bands`, and the new slice, labelled `nbands`, is concatenated onto
`self.data`. -/
def addindicesAux (factor : Int) : RasterState → Nat → List IdxFun → RasterState
  | st, _, [] => st
  | st, nbands, f :: rest =>
    let nb := nbands + 1
    let res := f st.data st.bands factor
    addindicesAux factor
      { st with data := st.data ++ [((nb : Int), res.1)], bands := st.bands ++ [res.2] }
      nb rest

/-- `Raster.addindices` (source lines 106-129): the loop starts with
`nbands = len(self.bands)`.  (The final `scales`/`offsets` attribute
replication is metadata outside the modelled state; see the module header.) -/
def addindices (st : RasterState) (fns : List IdxFun) (factor : Int) : RasterState :=
  addindicesAux factor st st.bands.length fns

/-- The message of the `assert` in `dropindices` (source line 132). -/
def assertMsg : String := "Specified band not in raster."

/-- `Raster.dropindices` (source lines 131-135).  The assert (line 132, the
first statement) guards that every requested name is present and raises the
fixed-message `AssertionError` otherwise.  When the assert passes, line 133
computes `dropind` (a pure list comprehension that always succeeds), and
line 134 calls `self.data.drop(dim="band", labels=dropind, drop=True)`.
That call raises in every xarray release: before 0.14.1 `DataArray.drop`
accepts no `drop=` keyword (`TypeError`), and from 0.14.1 on the keyword
lands in `labels_kwargs`, which together with `dim="band"` triggers
`ValueError: cannot specify dim and dict-like arguments.`.  Line 135 (the
`self.bands` update) is therefore unreachable: past the assert the method
always raises inside the library before touching any state. -/
def dropindices (st : RasterState) (drop : List String) : Except RError RasterState :=
  if drop.all (fun b => st.bands.contains b) then
    .error .libraryError
  else .error (.invalidBand assertMsg)

/-- The metadata profile of a raster file: the fields `toraster` touches
(`count`, `dtype`) plus the rest (geotransform, CRS, size, compression),
kept opaque. -/
structure Meta where
  count : Nat
  dtype : String
  rest : String
deriving DecidableEq, Repr

/-- The observable outcome of `Raster.toraster`: the caller's `prediction`
array after the call (it is mutated in place by the boolean-mask
assignment), the metadata profile used for the output file, and the pixel
data written to it. -/
structure TorasterOut where
  predictionAfter : List Int
  outMeta : Meta
  written : List Int
deriving DecidableEq, Repr

/-- `Raster.toraster` (source lines 149-172), with the reference file's
content (`meta = src.profile`, `nodatavals = src.read_masks(1)`) passed in
directly.  `self.nodataval[0]` raises on an empty tuple; the boolean-mask
assignment requires `prediction` and the mask to have the same shape.
`nodatavals[nodatavals == 0] = nd` stamps the no-data value into the mask;
`prediction[nodatavals == nd] = nodatavals[nodatavals == nd]` copies it into
`prediction` wherever the stamped mask equals `nd`; `out_meta` forces
`count = 1` and `dtype = 'int16'`; `dst.write(prediction, 1)` writes the
mutated `prediction`. -/
def toraster (nodataval : List Int) (refMask : List Int) (refMeta : Meta)
    (prediction : List Int) : Except RError TorasterOut :=
  match nodataval with
  | [] => .error .libraryError
  | nd :: _ =>
    if prediction.length = refMask.length then
      let nodatavals := refMask.map (fun v => if v = 0 then nd else v)
      let pred := List.zipWith (fun p m => if m = nd then m else p) prediction nodatavals
      .ok { predictionAfter := pred
            outMeta := { refMeta with count := 1, dtype := "int16" }
            written := pred }
    else .error .libraryError

/-- The spec's data-model invariant: the band-name list and the band
dimension of the pixel array have the same length. -/
def bandInvariant (st : RasterState) : Prop := st.bands.length = st.data.length

/-- The elementwise postcondition of a thresholding call: every pixel where
`cmp` held against the boundary is kept, every other pixel is `r`; band
labels, band count, per-band sizes, band names and the no-data value are
unchanged. -/
def thresholdPost (cmp : Int → Int → Prop) [DecidableRel cmp]
    (st st' : RasterState) (b r : Int) : Prop :=
  st'.bands = st.bands ∧ st'.nodataval = st.nodataval ∧
  st'.data.length = st.data.length ∧
  ∀ i (hi : i < st'.data.length) (hi' : i < st.data.length),
    (st'.data[i]).1 = (st.data[i]).1 ∧
    (st'.data[i]).2.length = (st.data[i]).2.length ∧
    ∀ j (hj : j < (st'.data[i]).2.length) (hj' : j < (st.data[i]).2.length),
      ((st'.data[i]).2)[j] =
        if cmp ((st.data[i]).2)[j] b then ((st.data[i]).2)[j] else r

/-- C6: after `preprocess('>', b, r)` each pixel equals the original where it
exceeds `b` and `r` elsewhere; after `preprocess('<', b, r)` each pixel
equals the original where it is below `b` and `r` elsewhere; the replacement
is uniform across bands and the shape is unchanged. -/
theorem preprocess_threshold_correct (st : RasterState) (b r : Int) (st' : RasterState) :
    (preprocess st ">" b r = .ok st' → thresholdPost (fun v w => w < v) st st' b r) ∧
    (preprocess st "<" b r = .ok st' → thresholdPost (fun v w => v < w) st st' b r) := by
  constructor <;> intro h <;>
    · simp only [preprocess, reduceIte] at h
      cases h
      refine ⟨rfl, rfl, by simp, ?_⟩
      intro i hi hi'
      simp [List.getElem_map]

/-- Witness for `preprocess_threshold_correct` at a concrete raster. -/
theorem preprocess_threshold_correct_witness :
    preprocess ⟨[(1, [-3, 5])], ["A"], [0]⟩ ">" 0 0 = .ok ⟨[(1, [0, 5])], ["A"], [0]⟩ ∧
    thresholdPost (fun v w => w < v) ⟨[(1, [-3, 5])], ["A"], [0]⟩ ⟨[(1, [0, 5])], ["A"], [0]⟩ 0 0 :=
  ⟨by decide, (preprocess_threshold_correct ⟨[(1, [-3, 5])], ["A"], [0]⟩ 0 0
      ⟨[(1, [0, 5])], ["A"], [0]⟩).1 (by decide)⟩

theorem threshold_map_idem (b r : Int) (l : List Int) :
    (l.map (fun v => if b < v then v else r)).map (fun v => if b < v then v else r) =
      l.map (fun v => if b < v then v else r) := by
  rw [List.map_map]
  apply List.map_congr_left
  intro v _
  simp only [Function.comp_apply]
  by_cases h : b < v
  · simp [h]
  · simp [h, ite_self]

/-- C7: thresholding with `'>'` is idempotent: running
`preprocess('>', b, r)` on its own result reproduces that result. -/
theorem preprocess_gt_idempotent (st st' : RasterState) (b r : Int)
    (h : preprocess st ">" b r = .ok st') : preprocess st' ">" b r = .ok st' := by
  have e1 : preprocess st ">" b r =
      .ok { st with data := st.data.map (fun p => (p.1, p.2.map (fun v => if b < v then v else r))) } := rfl
  rw [e1] at h
  cases h
  have e2 : ∀ s : RasterState, preprocess s ">" b r =
      .ok { s with data := s.data.map (fun p => (p.1, p.2.map (fun v => if b < v then v else r))) } :=
    fun s => rfl
  rw [e2]
  simp only [Except.ok.injEq, RasterState.mk.injEq]
  refine ⟨?_, trivial, trivial⟩
  rw [List.map_map]
  apply List.map_congr_left
  intro p _
  simp only [Function.comp_apply, Prod.mk.injEq]
  exact ⟨trivial, threshold_map_idem b r p.2⟩

/-- Witness for `preprocess_gt_idempotent` at a concrete raster. -/
theorem preprocess_gt_idempotent_witness :
    preprocess ⟨[(1, [-3, 5])], ["A"], [0]⟩ ">" 0 0 = .ok ⟨[(1, [0, 5])], ["A"], [0]⟩ ∧
    preprocess ⟨[(1, [0, 5])], ["A"], [0]⟩ ">" 0 0 = .ok ⟨[(1, [0, 5])], ["A"], [0]⟩ :=
  ⟨by decide, preprocess_gt_idempotent ⟨[(1, [-3, 5])], ["A"], [0]⟩ ⟨[(1, [0, 5])], ["A"], [0]⟩ 0 0
    (by decide)⟩

/-- C8: `preprocess` succeeds exactly when the operator is in the closed set
containing `'<'` and `'>'`, and fails with the unsupported-operator error on
every operator outside that set. -/
theorem preprocess_operator_validation (st : RasterState) (op : String) (b r : Int) :
    ((∃ st', preprocess st op b r = .ok st') ↔ (op = "<" ∨ op = ">")) ∧
    (op ≠ "<" → op ≠ ">" → preprocess st op b r = .error .unsupportedOperator) := by
  refine ⟨⟨?_, ?_⟩, ?_⟩
  · intro h
    obtain ⟨st', h⟩ := h
    by_cases h1 : op = "<"
    · exact Or.inl h1
    by_cases h2 : op = ">"
    · exact Or.inr h2
    simp [preprocess, h1, h2] at h
  · rintro (h | h) <;> subst h <;> exact ⟨_, rfl⟩
  · intro h1 h2
    simp [preprocess, h1, h2]

/-- Witness for `preprocess_operator_validation` at the operator `+`. -/
theorem preprocess_operator_validation_witness :
    ("+" ≠ "<") ∧ ("+" ≠ ">") ∧
    preprocess ⟨[(1, [5])], ["A"], [0]⟩ "+" 0 0 = .error .unsupportedOperator :=
  ⟨by decide, by decide,
    (preprocess_operator_validation ⟨[(1, [5])], ["A"], [0]⟩ "+" 0 0).2 (by decide) (by decide)⟩

/-- The band names `addindices` is specified (spec 4.3) to append: computed
in the order given, each index function receiving the progressively-updated
data and band list, so that bands added earlier in the same call are
resolvable by later functions. -/
def addNamesSpec (factor : Int) : List (Int × List Int) → List String → Nat → List IdxFun → List String
  | _, _, _, [] => []
  | d, b, n, f :: rest =>
    let res := f d b factor
    res.2 :: addNamesSpec factor (d ++ [(((n + 1 : Nat) : Int), res.1)]) (b ++ [res.2]) (n + 1) rest

theorem addindicesAux_bands (factor : Int) (fns : List IdxFun) :
    ∀ (st : RasterState) (n : Nat),
      (addindicesAux factor st n fns).bands =
        st.bands ++ addNamesSpec factor st.data st.bands n fns := by
  induction fns with
  | nil => intro st n; simp [addindicesAux, addNamesSpec]
  | cons f rest ih =>
    intro st n
    simp only [addindicesAux, addNamesSpec]
    rw [ih]
    simp

theorem addindicesAux_length (factor : Int) (fns : List IdxFun) :
    ∀ (st : RasterState) (n : Nat),
      (addindicesAux factor st n fns).bands.length = st.bands.length + fns.length ∧
      (addindicesAux factor st n fns).data.length = st.data.length + fns.length := by
  induction fns with
  | nil => intro st n; simp [addindicesAux]
  | cons f rest ih =>
    intro st n
    simp only [addindicesAux]
    obtain ⟨h1, h2⟩ := ih
      { st with data := st.data ++ [(((n + 1 : Nat) : Int), (f st.data st.bands factor).1)],
                bands := st.bands ++ [(f st.data st.bands factor).2] } (n + 1)
    refine ⟨?_, ?_⟩
    · rw [h1]; simp; omega
    · rw [h2]; simp; omega

/-- C5: `addindices` with K index functions grows the band-name list and the
band dimension by exactly K; the names are appended in call order, each
function receiving the progressively-updated band list (refinement against
`addNamesSpec`); in particular, in a two-function call the second function
is applied to the band list already extended with the first function's
band id. -/
theorem addindices_ordered_progressive (st : RasterState) (fns : List IdxFun) (factor : Int) :
    (addindices st fns factor).bands.length = st.bands.length + fns.length ∧
    (addindices st fns factor).data.length = st.data.length + fns.length ∧
    (addindices st fns factor).bands =
      st.bands ++ addNamesSpec factor st.data st.bands st.bands.length fns ∧
    ∀ f g : IdxFun, (addindices st [f, g] factor).bands =
      st.bands ++ [(f st.data st.bands factor).2,
        (g (st.data ++ [(((st.bands.length + 1 : Nat) : Int), (f st.data st.bands factor).1)])
           (st.bands ++ [(f st.data st.bands factor).2]) factor).2] := by
  refine ⟨(addindicesAux_length factor fns st st.bands.length).1,
          (addindicesAux_length factor fns st st.bands.length).2,
          addindicesAux_bands factor fns st st.bands.length, ?_⟩
  intro f g
  simp [addindices, addindicesAux]

/-- C3 evidence: `dropindices` can never perform the removal the claim (and
the spec contract) describe.  On a freshly loaded three-band raster,
dropping the present band `"A"` passes the assert and then raises inside
`self.data.drop(dim="band", labels=dropind, drop=True)` — the `drop=True`
keyword is rejected by every xarray release — so no slice and no name is
ever removed; indeed no call to `dropindices`, on any state and any name
list, returns normally. -/
theorem dropindices_never_completes_bug :
    dropindices ⟨[(1, [10]), (2, [20]), (3, [30])], ["A", "B", "C"], [0]⟩ ["A"] =
      .error .libraryError ∧
    ∀ st drop, ∃ e, dropindices st drop = .error e := by
  refine ⟨rfl, ?_⟩
  intro st drop
  unfold dropindices
  split
  · exact ⟨.libraryError, rfl⟩
  · exact ⟨.invalidBand assertMsg, rfl⟩

/-- C9 counterexample: the `AssertionError` message raised for the absent
band `"B"` is the fixed string `"Specified band not in raster."`, which does
not mention `"B"` (the letter `B` does not even occur in it). -/
theorem dropindices_message_cex :
    dropindices ⟨[(1, [10])], ["A"], [0]⟩ ["B"] = .error (.invalidBand assertMsg) ∧
    ('B' ∈ assertMsg.toList → False) := by
  decide

/-- C9 (amended): when some requested band name is absent, `dropindices`
fails with the invalid-band error carrying the fixed assertion message (the
offending names are not listed in it), and — the assert being the first
statement — no state change is produced by the failed call. -/
theorem dropindices_missing_band (st : RasterState) (drop : List String)
    (h : ∃ b ∈ drop, b ∉ st.bands) :
    dropindices st drop = .error (.invalidBand assertMsg) := by
  obtain ⟨b, hb, hnb⟩ := h
  unfold dropindices
  rw [if_neg]
  intro hall
  exact hnb (List.elem_iff.mp (List.all_eq_true.mp hall b hb))

/-- Witness for `dropindices_missing_band`. -/
theorem dropindices_missing_band_witness :
    (∃ b ∈ ["B"], b ∉ (⟨[(1, [10])], ["A"], [7]⟩ : RasterState).bands) ∧
    dropindices ⟨[(1, [10])], ["A"], [7]⟩ ["B"] = .error (.invalidBand assertMsg) :=
  ⟨by decide, dropindices_missing_band ⟨[(1, [10])], ["A"], [7]⟩ ["B"] (by decide)⟩

theorem countP_eq_of_pointwise {α β : Type} (p : α → Bool) (q : β → Bool) :
    ∀ (l₁ : List α) (l₂ : List β), l₁.length = l₂.length →
      (∀ i (h₁ : i < l₁.length) (h₂ : i < l₂.length), p l₁[i] = q l₂[i]) →
      l₁.countP p = l₂.countP q := by
  intro l₁
  induction l₁ with
  | nil =>
    intro l₂ hlen _
    cases l₂ with
    | nil => rfl
    | cons b t => simp at hlen
  | cons a t ih =>
    intro l₂ hlen hpt
    cases l₂ with
    | nil => simp at hlen
    | cons b t₂ =>
      simp only [List.countP_cons]
      have h0 := hpt 0 (by simp) (by simp)
      simp only [List.getElem_cons_zero] at h0
      have ht : t.countP p = t₂.countP q := by
        apply ih t₂ (by simpa using hlen)
        intro i h₁ h₂
        have := hpt (i + 1) (by simpa using Nat.succ_lt_succ h₁) (by simpa using Nat.succ_lt_succ h₂)
        simpa using this
      rw [ht, h0]

theorem preprocess_preserves_invariant (st : RasterState) (op : String) (b r : Int)
    (st' : RasterState) (hinv : bandInvariant st) (h : preprocess st op b r = .ok st') :
    bandInvariant st' := by
  unfold preprocess at h
  split at h
  · replace h := Except.ok.inj h
    subst h
    show st.bands.length = _
    simpa using hinv
  · split at h
    · replace h := Except.ok.inj h
      subst h
      show st.bands.length = _
      simpa using hinv
    · exact absurd h (by simp)

theorem addindices_preserves_invariant (st : RasterState) (fns : List IdxFun) (factor : Int)
    (hinv : bandInvariant st) : bandInvariant (addindices st fns factor) := by
  obtain ⟨h1, h2⟩ := addindicesAux_length factor fns st st.bands.length
  unfold bandInvariant addindices at *
  rw [h1, h2, hinv]

/-- C4 (amended): the length invariant is preserved by `preprocess` and
`addindices` whenever they complete normally.  `dropindices` never
completes normally — past its assert the `.drop` call raises in every
xarray release — so it never alters the state and trivially never breaks
the invariant held by the caller's unchanged object.  Construction with a
path and `readraster` do not preserve the invariant unconditionally: they
overwrite the state and establish it exactly when the supplied band-name
list is as long as the file's band count. -/
theorem invariant_preservation :
    (∀ st op b r st', bandInvariant st → preprocess st op b r = .ok st' → bandInvariant st') ∧
    (∀ st fns factor, bandInvariant st → bandInvariant (addindices st fns factor)) ∧
    (∀ st drop, ∃ e, dropindices st drop = .error e) ∧
    (∀ fs fn bs fd o', fs fn = some fd → rasterInit fs (some fn) (some bs) = .ok o' →
      o' = ⟨some (mkData fd), some bs, some fd.nodatavals⟩ ∧
      (bandInvariant ⟨mkData fd, bs, fd.nodatavals⟩ ↔ bs.length = fd.bands.length)) ∧
    (∀ fs o fn bs fd o', fs fn = some fd → readraster fs o fn (some bs) = .ok o' →
      o' = ⟨some (mkData fd), some bs, some fd.nodatavals⟩ ∧
      (bandInvariant ⟨mkData fd, bs, fd.nodatavals⟩ ↔ bs.length = fd.bands.length)) := by
  refine ⟨fun st op b r st' hinv h => preprocess_preserves_invariant st op b r st' hinv h,
          fun st fns factor hinv => addindices_preserves_invariant st fns factor hinv,
          ?_, ?_, ?_⟩
  · intro st drop
    unfold dropindices
    split
    · exact ⟨.libraryError, rfl⟩
    · exact ⟨.invalidBand assertMsg, rfl⟩
  · intro fs fn bs fd o' hfd h
    have he : rasterInit fs (some fn) (some bs) =
        .ok ⟨some (mkData fd), some bs, some fd.nodatavals⟩ := by
      simp only [rasterInit, hfd]
    rw [he] at h
    replace h := Except.ok.inj h
    subst h
    refine ⟨rfl, ?_⟩
    unfold bandInvariant mkData
    simp
  · intro fs o fn bs fd o' hfd h
    have he : readraster fs o fn (some bs) =
        .ok ⟨some (mkData fd), some bs, some fd.nodatavals⟩ := by
      simp only [readraster, hfd]
    rw [he] at h
    replace h := Except.ok.inj h
    subst h
    refine ⟨rfl, ?_⟩
    unfold bandInvariant mkData
    simp

/-- C4 counterexample: from a loaded two-band object on which the invariant
holds, `readraster` with a one-name band list completes normally and leaves
a state with one band name over two band slices — the invariant does not
survive the operation. -/
theorem invariant_preservation_cex :
    bandInvariant ⟨[(1, [1]), (2, [2])], ["A", "B"], [0]⟩ ∧
    readraster (fun fn => if fn = "f" then some ⟨[[1], [2]], [0]⟩ else none)
        ⟨some [(1, [1]), (2, [2])], some ["A", "B"], some [0]⟩ "f" (some ["A"]) =
      .ok ⟨some [(1, [1]), (2, [2])], some ["A"], some [0]⟩ ∧
    ¬ bandInvariant ⟨[(1, [1]), (2, [2])], ["A"], [0]⟩ := by
  refine ⟨rfl, rfl, ?_⟩
  intro h
  simp [bandInvariant] at h

/-- Witness for `invariant_preservation`: the `preprocess` clause applied to
a concrete one-band raster (whose invariant holds and survives), and the
`dropindices` clause at a concrete present band name. -/
theorem invariant_preservation_witness :
    bandInvariant ⟨[(1, [5])], ["A"], [0]⟩ ∧
    preprocess ⟨[(1, [5])], ["A"], [0]⟩ ">" 0 0 = .ok ⟨[(1, [5])], ["A"], [0]⟩ ∧
    bandInvariant ⟨[(1, [5])], ["A"], [0]⟩ ∧
    (∃ e, dropindices ⟨[(1, [5])], ["A"], [0]⟩ ["A"] = .error e) :=
  ⟨rfl, by decide,
    invariant_preservation.1 ⟨[(1, [5])], ["A"], [0]⟩ ">" 0 0 ⟨[(1, [5])], ["A"], [0]⟩
      rfl (by decide),
    invariant_preservation.2.2.1 ⟨[(1, [5])], ["A"], [0]⟩ ["A"]⟩

/-- C1 counterexample: over a file system where `"f"` exists, constructing
with the path but no band list raises the configuration error, while the
two-phase route (`Raster()` then `readraster("f", None)`) succeeds and
leaves `bands` unset — the two entry points do not have identical error
behaviour. -/
theorem load_entry_points_cex :
    rasterInit (fun fn => if fn = "f" then some ⟨[[1]], [0]⟩ else none) (some "f") none =
      .error .configuration ∧
    readraster (fun fn => if fn = "f" then some ⟨[[1]], [0]⟩ else none)
        ⟨none, none, none⟩ "f" none =
      .ok ⟨some [(1, [1])], none, some [0]⟩ :=
  ⟨rfl, rfl⟩

/-- C1 (amended): when the file exists and a band list is supplied, the
eager and the two-phase entry points produce identical resulting state;
when the file is missing both fail, but with different errors (`__init__`
checks existence itself, `readraster` surfaces the library's error); when
the band list is omitted, only `__init__` raises the configuration error —
`readraster` completes and stores the unset band list. -/
theorem load_entry_points_amended :
    (∀ fs fn bs fd, fs fn = some fd →
      rasterInit fs (some fn) (some bs) =
        .ok ⟨some (mkData fd), some bs, some fd.nodatavals⟩ ∧
      readraster fs ⟨none, none, none⟩ fn (some bs) =
        .ok ⟨some (mkData fd), some bs, some fd.nodatavals⟩) ∧
    (∀ fs fn bs, fs fn = none →
      rasterInit fs (some fn) (some bs) = .error .notFound ∧
      readraster fs ⟨none, none, none⟩ fn (some bs) = .error .libraryError) ∧
    (∀ fs fn fd, fs fn = some fd →
      rasterInit fs (some fn) none = .error .configuration ∧
      readraster fs ⟨none, none, none⟩ fn none =
        .ok ⟨some (mkData fd), none, some fd.nodatavals⟩) := by
  refine ⟨?_, ?_, ?_⟩
  · intro fs fn bs fd hfd
    constructor <;> simp only [rasterInit, readraster, hfd]
  · intro fs fn bs hfd
    constructor <;> simp only [rasterInit, readraster, hfd]
  · intro fs fn fd hfd
    constructor <;> simp only [rasterInit, readraster, hfd]

/-- Witness for `load_entry_points_amended`: both entry points loading an
existing one-band file with the band list `["X"]`. -/
theorem load_entry_points_amended_witness :
    ((fun fn => if fn = "g" then some (⟨[[2]], [9]⟩ : FileData) else none) "g" =
      some ⟨[[2]], [9]⟩) ∧
    rasterInit (fun fn => if fn = "g" then some ⟨[[2]], [9]⟩ else none) (some "g") (some ["X"]) =
      .ok ⟨some (mkData ⟨[[2]], [9]⟩), some ["X"], some [9]⟩ ∧
    readraster (fun fn => if fn = "g" then some ⟨[[2]], [9]⟩ else none)
        ⟨none, none, none⟩ "g" (some ["X"]) =
      .ok ⟨some (mkData ⟨[[2]], [9]⟩), some ["X"], some [9]⟩ :=
  ⟨rfl, (load_entry_points_amended.1 (fun fn => if fn = "g" then some ⟨[[2]], [9]⟩ else none)
    "g" ["X"] ⟨[[2]], [9]⟩ rfl).1,
    (load_entry_points_amended.1 (fun fn => if fn = "g" then some ⟨[[2]], [9]⟩ else none)
    "g" ["X"] ⟨[[2]], [9]⟩ rfl).2⟩

/-- A concrete reference profile used in the `toraster` evidence. -/
def refMeta0 : Meta := ⟨3, "float64", "refmeta"⟩

/-- C2 counterexample: the reference mask `[255]` marks `M = 0` pixels
invalid, yet with `nodataval = [5]` and the prediction `[5]` the written
output `[5]` has one position equal to the no-data value — "exactly those M
positions, no more" fails as soon as the prediction already contains the
no-data value (or the mask value collides with it). -/
theorem toraster_exact_count_cex :
    toraster [5] [255] refMeta0 [5] = .ok ⟨[5], ⟨1, "int16", "refmeta"⟩, [5]⟩ ∧
    List.countP (fun v => v == (0 : Int)) [(255 : Int)] = 0 ∧
    List.countP (fun v => v == (5 : Int)) [(5 : Int)] = 1 := by
  decide

/-- C2 (amended): the output raster's profile forces band count 1 and dtype
`int16`; a written position equals the captured no-data value exactly when
the reference mask is `0` there, the mask value itself equals the no-data
value, or the prediction already equalled it; in particular, when neither
degenerate case occurs, the number of no-data positions written is exactly
the number of mask-invalid positions `M`. -/
theorem toraster_nodata_footprint (nd : Int) (rest : List Int) (mask pred : List Int)
    (meta : Meta) (out : TorasterOut)
    (hlen : pred.length = mask.length)
    (h : toraster (nd :: rest) mask meta pred = .ok out) :
    out.outMeta.count = 1 ∧ out.outMeta.dtype = "int16" ∧
    out.written.length = mask.length ∧
    (∀ i (hi : i < out.written.length) (him : i < mask.length) (hip : i < pred.length),
      out.written[i] = nd ↔ (mask[i] = 0 ∨ mask[i] = nd ∨ pred[i] = nd)) ∧
    ((∀ i (him : i < mask.length) (hip : i < pred.length),
        mask[i] ≠ 0 → (mask[i] ≠ nd ∧ pred[i] ≠ nd)) →
      out.written.countP (fun v => v == nd) = mask.countP (fun v => v == 0)) := by
  simp only [toraster] at h
  rw [if_pos hlen] at h
  replace h := Except.ok.inj h
  subst h
  have hwlen : (List.zipWith (fun p m => if m = nd then m else p) pred
      (mask.map (fun v => if v = 0 then nd else v))).length = mask.length := by
    rw [List.length_zipWith, List.length_map, hlen, min_self]
  have hptw : ∀ i (him : i < mask.length) (hip : i < pred.length)
      (hw : i < (List.zipWith (fun p m => if m = nd then m else p) pred
        (mask.map (fun v => if v = 0 then nd else v))).length),
      (List.zipWith (fun p m => if m = nd then m else p) pred
        (mask.map (fun v => if v = 0 then nd else v)))[i] =
        if (if mask[i] = 0 then nd else mask[i]) = nd
        then (if mask[i] = 0 then nd else mask[i]) else pred[i] := by
    intro i him hip hw
    rw [List.getElem_zipWith]
    rw [List.getElem_map]
  refine ⟨rfl, rfl, hwlen, ?_, ?_⟩
  · intro i hi him hip
    rw [hptw i him hip hi]
    by_cases h0 : mask[i] = 0
    · simp [h0]
    · by_cases hn : mask[i] = nd
      · simp [h0, hn]
      · simp [h0, hn]
  · intro hdeg
    apply countP_eq_of_pointwise _ _ _ mask hwlen
    intro i hw him
    have hip : i < pred.length := by rw [hlen]; exact him
    rw [hptw i him hip hw]
    by_cases h0 : mask[i] = 0
    · simp [h0]
    · obtain ⟨hn, hp⟩ := hdeg i him hip h0
      simp [h0, hn, hp]

/-- Witness for `toraster_nodata_footprint`: a two-pixel reference whose
mask marks the first position invalid. -/
theorem toraster_nodata_footprint_witness :
    (([1, 2] : List Int).length = ([0, 255] : List Int).length) ∧
    toraster [-9] [0, 255] refMeta0 [1, 2] =
      .ok ⟨[-9, 2], ⟨1, "int16", "refmeta"⟩, [-9, 2]⟩ ∧
    ([(-9 : Int), 2].countP (fun v => v == (-9 : Int)) =
      [(0 : Int), 255].countP (fun v => v == (0 : Int))) :=
  ⟨rfl, by decide,
    (toraster_nodata_footprint (-9) [] [0, 255] [1, 2] refMeta0
      ⟨[-9, 2], ⟨1, "int16", "refmeta"⟩, [-9, 2]⟩ (by decide) (by decide)).2.2.2.2
      (by decide)⟩

/-- C10: `toraster` overwrites the caller's `prediction` array in place
before writing: the array the caller holds after the call is exactly the
array written to disk — the stamped array, not the original prediction —
and it can differ from the original, as the concrete one-pixel case with an
invalid mask position shows. -/
theorem toraster_mutates_prediction :
    (∀ nd rest mask meta pred out, toraster (nd :: rest) mask meta pred = .ok out →
      out.predictionAfter = out.written ∧
      out.predictionAfter = List.zipWith (fun p m => if m = nd then m else p) pred
        (mask.map (fun v => if v = 0 then nd else v))) ∧
    (toraster [5] [0] refMeta0 [7] = .ok ⟨[5], ⟨1, "int16", "refmeta"⟩, [5]⟩ ∧
      ([5] : List Int) ≠ [7]) := by
  constructor
  · intro nd rest mask meta pred out h
    simp only [toraster] at h
    split at h
    · replace h := Except.ok.inj h
      subst h
      exact ⟨rfl, rfl⟩
    · exact absurd h (by simp)
  · exact ⟨by decide, by decide⟩

/-- Witness for `toraster_mutates_prediction`: the universally quantified
clause applied to the concrete call from its second clause. -/
theorem toraster_mutates_prediction_witness :
    toraster [5] [0] refMeta0 [7] = .ok ⟨[5], ⟨1, "int16", "refmeta"⟩, [5]⟩ ∧
    (⟨[5], ⟨1, "int16", "refmeta"⟩, [5]⟩ : TorasterOut).predictionAfter =
      (⟨[5], ⟨1, "int16", "refmeta"⟩, [5]⟩ : TorasterOut).written :=
  ⟨by decide,
    (toraster_mutates_prediction.1 5 [] [0] refMeta0 [7]
      ⟨[5], ⟨1, "int16", "refmeta"⟩, [5]⟩ (by decide)).1⟩
